import Mathlib

/-!
Shallow embedding of the stunner repository: a minimal STUN Binding client
(`stunner_client/src/main.rs`) and server (`stunner_server/src/main.rs`).

The binary wire codec (the external `stun_coder` crate) is out of scope for the
repository itself; `StunMessage::decode` and `StunMessage::encode` are therefore
abstracted as function parameters, while the message data model (header with
method, class, transaction id, plus an attribute list) is embedded concretely,
mirroring the types the server and client manipulate.  `StunMessage::new`
generates a fresh transaction identifier inside the codec; that identifier is
passed in explicitly as the `freshTid` parameter.
-/

/-- The STUN message methods handled by the repository.  The Rust match in
`parse_message` is exhaustive with only `BindingRequest` patterns, so the
`stun_coder` enum has exactly this one variant. -/
inductive StunMessageMethod where
  | BindingRequest
deriving DecidableEq, Repr

/-- The four STUN message classes of `stun_coder::StunMessageClass`. -/
inductive StunMessageClass where
  | Request
  | Indication
  | SuccessResponse
  | ErrorResponse
deriving DecidableEq, Repr

/-- A socket address (`std::net::SocketAddr`), modelled as an ip given by a
list of numeric components together with a port. -/
structure SocketAddr where
  ip : List Nat
  port : Nat
deriving DecidableEq, Repr

/-- The STUN attributes used by the repository (`stun_coder::StunAttribute`):
`Software`, `XorMappedAddress` and `ErrorCode` (whose Rust fields are
`class`, `number`, `reason`; `class` is a Lean keyword, hence `cls`). -/
inductive StunAttribute where
  | Software (description : String)
  | XorMappedAddress (socket_addr : SocketAddr)
  | ErrorCode (cls : Nat) (number : Nat) (reason : String)
deriving DecidableEq, Repr

/-- The STUN message header: method, class and transaction identifier
(a 12-byte value in `stun_coder`, modelled as a list of bytes). -/
structure StunHeader where
  message_method : StunMessageMethod
  message_class : StunMessageClass
  transaction_id : List Nat
deriving DecidableEq, Repr

/-- A decoded STUN message: header plus ordered attribute list. -/
structure StunMessage where
  header : StunHeader
  attributes : List StunAttribute
deriving DecidableEq, Repr

/-- `StunMessage::get_header`. -/
def StunMessage.get_header (m : StunMessage) : StunHeader :=
  m.header

/-- `StunMessage::get_attributes`. -/
def StunMessage.get_attributes (m : StunMessage) : List StunAttribute :=
  m.attributes

/-- `StunMessage::new(method, class)`: a message with an empty attribute list
and a freshly generated transaction identifier, passed here explicitly. -/
def StunMessage.new (method : StunMessageMethod) (cls : StunMessageClass)
    (freshTid : List Nat) : StunMessage :=
  { header := { message_method := method, message_class := cls,
                transaction_id := freshTid },
    attributes := [] }

/-- `StunMessage::set_transaction_id`. -/
def StunMessage.set_transaction_id (m : StunMessage) (tid : List Nat) :
    StunMessage :=
  { m with header := { m.header with transaction_id := tid } }

/-- `StunMessage::add_attribute`: appends one attribute. -/
def StunMessage.add_attribute (m : StunMessage) (a : StunAttribute) :
    StunMessage :=
  { m with attributes := m.attributes ++ [a] }

/-- Decode errors of the external codec, kept abstract. -/
abbrev DecodeError : Type := String

/-- The server's per-datagram handler `parse_message` from
`stunner_server/src/main.rs` (lines 51-106).  `decode` stands for
`StunMessage::decode(buf, None)`; `freshTid` is the transaction identifier
that `StunMessage::new` generates for the constructed reply. -/
def parse_message (decode : List Nat → Except DecodeError StunMessage)
    (freshTid : List Nat) (buf : List Nat) (src_addr : SocketAddr) :
    Option StunMessage :=
  match decode buf with
  | .error _ => none
  | .ok message =>
    let header := message.get_header
    match header.message_method, header.message_class with
    | .BindingRequest, .Request =>
        some (((StunMessage.new .BindingRequest .SuccessResponse
            freshTid).set_transaction_id
            header.transaction_id).add_attribute
            (.XorMappedAddress src_addr))
    | .BindingRequest, .Indication =>
        none
    | .BindingRequest, .ErrorResponse
    | .BindingRequest, .SuccessResponse =>
        some ((StunMessage.new .BindingRequest .ErrorResponse
            freshTid).add_attribute
            (.ErrorCode 4 0 "Invalid binding request class"))

/-- Claim C1: every inbound byte sequence decoding as a Binding Request yields
a reply of class SuccessResponse, method Binding, the inbound transaction
identifier, and exactly one XorMappedAddress attribute equal to the source
address. -/
theorem parse_message_binding_request
    (decode : List Nat → Except DecodeError StunMessage)
    (freshTid buf : List Nat) (src_addr : SocketAddr) (m : StunMessage)
    (hdec : decode buf = .ok m)
    (hcls : m.get_header.message_class = .Request) :
    ∃ reply, parse_message decode freshTid buf src_addr = some reply ∧
      reply.get_header.message_class = .SuccessResponse ∧
      reply.get_header.message_method = .BindingRequest ∧
      reply.get_header.transaction_id = m.get_header.transaction_id ∧
      reply.get_attributes = [.XorMappedAddress src_addr] ∧
      (reply.get_attributes.countP fun a =>
        match a with
        | .XorMappedAddress s => decide (s = src_addr)
        | _ => false) = 1 := by
  obtain ⟨⟨mm, mc, mt⟩, mattrs⟩ := m
  simp only [StunMessage.get_header] at hcls
  subst hcls
  cases mm
  refine ⟨⟨⟨.BindingRequest, .SuccessResponse, mt⟩,
      [.XorMappedAddress src_addr]⟩, ?_, rfl, rfl, rfl, rfl, ?_⟩
  · simp [parse_message, hdec, StunMessage.new, StunMessage.set_transaction_id,
      StunMessage.add_attribute, StunMessage.get_header]
  · simp [StunMessage.get_attributes, List.countP, List.countP.go]

/-- Closed witness for C1: a concrete decoder returning a Binding Request. -/
theorem parse_message_binding_request_witness :
    ∃ reply,
      parse_message (fun _ => .ok ⟨⟨.BindingRequest, .Request, [1, 2, 3]⟩, []⟩)
        [9, 9] [0] ⟨[127, 0, 0, 1], 8080⟩ = some reply ∧
      reply.get_header.message_class = .SuccessResponse ∧
      reply.get_header.message_method = .BindingRequest ∧
      reply.get_header.transaction_id = [1, 2, 3] ∧
      reply.get_attributes = [.XorMappedAddress ⟨[127, 0, 0, 1], 8080⟩] ∧
      (reply.get_attributes.countP fun a =>
        match a with
        | .XorMappedAddress s => decide (s = ⟨[127, 0, 0, 1], 8080⟩)
        | _ => false) = 1 :=
  parse_message_binding_request
    (fun _ => .ok ⟨⟨.BindingRequest, .Request, [1, 2, 3]⟩, []⟩)
    [9, 9] [0] ⟨[127, 0, 0, 1], 8080⟩
    ⟨⟨.BindingRequest, .Request, [1, 2, 3]⟩, []⟩ rfl rfl

/-- Claim C2: every inbound byte sequence decoding as a Binding
SuccessResponse or ErrorResponse yields a reply of class ErrorResponse with
exactly one ErrorCode attribute of class 4, number 0 and reason
"Invalid binding request class"; the reply's transaction identifier is the one
freshly generated by `StunMessage::new` (for every inbound transaction
identifier), so the inbound identifier is never copied. -/
theorem parse_message_binding_response_rejected
    (decode : List Nat → Except DecodeError StunMessage)
    (freshTid buf : List Nat) (src_addr : SocketAddr) (m : StunMessage)
    (hdec : decode buf = .ok m)
    (hcls : m.get_header.message_class = .SuccessResponse ∨
      m.get_header.message_class = .ErrorResponse) :
    ∃ reply, parse_message decode freshTid buf src_addr = some reply ∧
      reply.get_header.message_class = .ErrorResponse ∧
      reply.get_header.message_method = .BindingRequest ∧
      reply.get_header.transaction_id = freshTid ∧
      reply.get_attributes = [.ErrorCode 4 0 "Invalid binding request class"] ∧
      (reply.get_attributes.countP fun a =>
        match a with
        | .ErrorCode c n r =>
            decide (c = 4) && decide (n = 0) &&
              decide (r = "Invalid binding request class")
        | _ => false) = 1 := by
  obtain ⟨⟨mm, mc, mt⟩, mattrs⟩ := m
  simp only [StunMessage.get_header] at hcls
  cases mm
  refine ⟨⟨⟨.BindingRequest, .ErrorResponse, freshTid⟩,
      [.ErrorCode 4 0 "Invalid binding request class"]⟩, ?_, rfl, rfl, rfl,
      rfl, ?_⟩
  · rcases hcls with hcls | hcls <;> subst hcls <;>
      simp [parse_message, hdec, StunMessage.new, StunMessage.add_attribute,
        StunMessage.get_header]
  · simp [StunMessage.get_attributes, List.countP, List.countP.go]

/-- Closed witness for C2: a concrete decoder returning a Binding
SuccessResponse whose transaction identifier differs from the fresh one. -/
theorem parse_message_binding_response_rejected_witness :
    ∃ reply,
      parse_message
        (fun _ => .ok ⟨⟨.BindingRequest, .SuccessResponse, [1, 2, 3]⟩, []⟩)
        [9, 9] [0] ⟨[127, 0, 0, 1], 8080⟩ = some reply ∧
      reply.get_header.message_class = .ErrorResponse ∧
      reply.get_header.message_method = .BindingRequest ∧
      reply.get_header.transaction_id = [9, 9] ∧
      reply.get_attributes = [.ErrorCode 4 0 "Invalid binding request class"] ∧
      (reply.get_attributes.countP fun a =>
        match a with
        | .ErrorCode c n r =>
            decide (c = 4) && decide (n = 0) &&
              decide (r = "Invalid binding request class")
        | _ => false) = 1 :=
  parse_message_binding_response_rejected
    (fun _ => .ok ⟨⟨.BindingRequest, .SuccessResponse, [1, 2, 3]⟩, []⟩)
    [9, 9] [0] ⟨[127, 0, 0, 1], 8080⟩
    ⟨⟨.BindingRequest, .SuccessResponse, [1, 2, 3]⟩, []⟩ rfl (Or.inl rfl)

/-- Claim C3: every inbound byte sequence decoding as a Binding Indication
produces no reply. -/
theorem parse_message_indication_no_reply
    (decode : List Nat → Except DecodeError StunMessage)
    (freshTid buf : List Nat) (src_addr : SocketAddr) (m : StunMessage)
    (hdec : decode buf = .ok m)
    (hcls : m.get_header.message_class = .Indication) :
    parse_message decode freshTid buf src_addr = none := by
  obtain ⟨⟨mm, mc, mt⟩, mattrs⟩ := m
  simp only [StunMessage.get_header] at hcls
  subst hcls
  cases mm
  simp [parse_message, hdec, StunMessage.get_header]

/-- Closed witness for C3: a concrete decoder returning a Binding Indication. -/
theorem parse_message_indication_no_reply_witness :
    parse_message
      (fun _ => .ok ⟨⟨.BindingRequest, .Indication, [1, 2, 3]⟩, []⟩)
      [9, 9] [0] ⟨[127, 0, 0, 1], 8080⟩ = none :=
  parse_message_indication_no_reply
    (fun _ => .ok ⟨⟨.BindingRequest, .Indication, [1, 2, 3]⟩, []⟩)
    [9, 9] [0] ⟨[127, 0, 0, 1], 8080⟩
    ⟨⟨.BindingRequest, .Indication, [1, 2, 3]⟩, []⟩ rfl rfl

/-- Claim C4: every inbound byte sequence on which the codec's decode fails
makes `parse_message` return nothing; no error reaches the caller (the
function is total and its return type `Option StunMessage` carries no error
channel). -/
theorem parse_message_decode_failure_no_reply
    (decode : List Nat → Except DecodeError StunMessage)
    (freshTid buf : List Nat) (src_addr : SocketAddr) (e : DecodeError)
    (hdec : decode buf = .error e) :
    parse_message decode freshTid buf src_addr = none := by
  simp [parse_message, hdec]

/-- Closed witness for C4: a concrete always-failing decoder. -/
theorem parse_message_decode_failure_no_reply_witness :
    parse_message (fun _ => .error ("not a STUN message" : DecodeError))
      [9, 9] [0, 1, 2, 3] ⟨[127, 0, 0, 1], 8080⟩ = none :=
  parse_message_decode_failure_no_reply
    (fun _ => .error ("not a STUN message" : DecodeError))
    [9, 9] [0, 1, 2, 3] ⟨[127, 0, 0, 1], 8080⟩
    ("not a STUN message" : DecodeError) rfl

/-- Socket-level (transport) errors, kept abstract. -/
abbrev TransportError : Type := String

/-- Encode errors of the external codec, kept abstract. -/
abbrev EncodeError : Type := String

/-- The server's receive buffer size: `let mut buf = [0; 1024];` in `serve`
(`stunner_server/src/main.rs`, line 33). -/
def serverBufSize : Nat := 1024

/-- The client's receive buffer size: `const MAX_STUN_MSG_SIZE: usize = 1280;`
(`stunner_client/src/main.rs`, line 14). -/
def MAX_STUN_MSG_SIZE : Nat := 1280

/-- The contents of a zero-initialized buffer of capacity `cap` after a
datagram `d` has been received into it: the datagram's bytes, truncated to
`cap`, followed by the untouched trailing zero bytes. -/
def recvInto (cap : Nat) (d : List Nat) : List Nat :=
  d.take cap ++ List.replicate (cap - d.length) 0

/-- Outcome of one iteration of the server's `serve` loop: proceed to the next
receive, terminate `serve` with a propagated error (the `?` operator on
`recv_from`), or abort via the `unwrap()` on `encode`. -/
inductive ServeOutcome where
  | next
  | terminated (err : TransportError)
  | fatal (err : EncodeError)
deriving DecidableEq, Repr

/-- One iteration of the server's `serve` loop
(`stunner_server/src/main.rs`, lines 32-47).  `recvResult` is the outcome of
`sock.recv_from(&mut buf)` carrying the raw datagram and the source address;
`encode` stands for `StunMessage::encode(None)` and `send` for
`sock.send_to`.  A receive error is propagated by `?` (terminating the loop);
a send error is only logged; an encode error makes `unwrap()` panic. -/
def serveStep (decode : List Nat → Except DecodeError StunMessage)
    (freshTid : List Nat)
    (encode : StunMessage → Except EncodeError (List Nat))
    (send : List Nat → SocketAddr → Except TransportError Nat)
    (recvResult : Except TransportError (List Nat × SocketAddr)) :
    ServeOutcome :=
  match recvResult with
  | .error e => .terminated e
  | .ok (dgram, src_addr) =>
    let buf := recvInto serverBufSize dgram
    match parse_message decode freshTid buf src_addr with
    | none => .next
    | some message =>
      match encode message with
      | .error e => .fatal e
      | .ok bytes =>
        match send bytes src_addr with
        | .error _ => .next
        | .ok _ => .next

/-- Counterexample to claim C5 as stated: a receive failure is a per-datagram
error, yet the loop does not proceed to the next datagram — `serve` propagates
the error through `?` and terminates. -/
theorem serveStep_recv_error_terminates :
    serveStep (fun _ => .error ("bad" : DecodeError)) [9, 9]
        (fun _ => .error ("enc" : EncodeError))
        (fun _ _ => .ok 0)
        (.error ("connection reset" : TransportError)) =
      .terminated ("connection reset" : TransportError) ∧
    ServeOutcome.terminated ("connection reset" : TransportError) ≠
      ServeOutcome.next :=
  ⟨rfl, fun h => ServeOutcome.noConfusion h⟩

/-- Claim C5 as amended: the `serve` loop never terminates because of a decode
failure, a dispatch producing no reply, or a send failure — those are handled
locally and the loop proceeds to the next receive; only a receive failure
terminates the loop (and an encode failure panics). -/
theorem serveStep_local_errors_continue
    (decode : List Nat → Except DecodeError StunMessage)
    (freshTid : List Nat)
    (encode : StunMessage → Except EncodeError (List Nat))
    (send : List Nat → SocketAddr → Except TransportError Nat)
    (dgram : List Nat) (src_addr : SocketAddr)
    (henc : ∀ msg,
      parse_message decode freshTid (recvInto serverBufSize dgram) src_addr =
        some msg → ∃ bytes, encode msg = .ok bytes) :
    serveStep decode freshTid encode send (.ok (dgram, src_addr)) = .next := by
  unfold serveStep
  cases hp : parse_message decode freshTid (recvInto serverBufSize dgram)
      src_addr with
  | none => simp [hp]
  | some msg =>
    obtain ⟨bytes, hb⟩ := henc msg hp
    cases hs : send bytes src_addr <;> simp [hp, hb, hs]

/-- Closed witness for the amended C5: a decode failure (malformed datagram)
together with a failing send leaves the loop running. -/
theorem serveStep_local_errors_continue_witness :
    serveStep (fun _ => .error ("not a STUN message" : DecodeError)) [9, 9]
        (fun _ => .ok [0])
        (fun _ _ => .error ("host unreachable" : TransportError))
        (.ok ([1, 2, 3], ⟨[127, 0, 0, 1], 8080⟩)) = .next :=
  serveStep_local_errors_continue
    (fun _ => .error ("not a STUN message" : DecodeError)) [9, 9]
    (fun _ => .ok [0])
    (fun _ _ => .error ("host unreachable" : TransportError))
    [1, 2, 3] ⟨[127, 0, 0, 1], 8080⟩
    (fun _ h => Option.noConfusion h)

/-- Counterexample to claim C6 as stated: the server's receive buffer has
capacity 1024, not 1280 — only the client uses 1280. -/
theorem serverBufSize_not_1280 :
    serverBufSize = 1024 ∧ MAX_STUN_MSG_SIZE = 1280 ∧
      ¬ serverBufSize = 1280 := by
  refine ⟨rfl, rfl, ?_⟩
  decide

/-- Claim C6 as amended: the client's reply buffer has capacity exactly 1280
bytes and the server's request buffer capacity exactly 1024 bytes; in each
role, the bytes of a datagram beyond the buffer capacity are truncated by the
receive call, and the buffer handed onward always has exactly the capacity's
length. -/
theorem receive_buffer_capacities
    (d : List Nat) :
    MAX_STUN_MSG_SIZE = 1280 ∧ serverBufSize = 1024 ∧
      (serverBufSize ≤ d.length →
        recvInto serverBufSize d = d.take serverBufSize) ∧
      (MAX_STUN_MSG_SIZE ≤ d.length →
        recvInto MAX_STUN_MSG_SIZE d = d.take MAX_STUN_MSG_SIZE) ∧
      (recvInto serverBufSize d).length = serverBufSize ∧
      (recvInto MAX_STUN_MSG_SIZE d).length = MAX_STUN_MSG_SIZE := by
  refine ⟨rfl, rfl, ?_, ?_, ?_, ?_⟩ <;>
    simp [recvInto, Nat.sub_eq_zero_of_le] <;> omega

/-- Closed witness for the amended C6: a 2000-byte datagram is truncated to
1024 bytes on the server and to 1280 bytes on the client. -/
theorem receive_buffer_capacities_witness :
    recvInto serverBufSize (List.replicate 2000 7) =
        (List.replicate 2000 7).take serverBufSize ∧
      recvInto MAX_STUN_MSG_SIZE (List.replicate 2000 7) =
        (List.replicate 2000 7).take MAX_STUN_MSG_SIZE ∧
      (recvInto serverBufSize (List.replicate 2000 7)).length = serverBufSize ∧
      (recvInto MAX_STUN_MSG_SIZE (List.replicate 2000 7)).length =
        MAX_STUN_MSG_SIZE :=
  ⟨(receive_buffer_capacities (List.replicate 2000 7)).2.2.1
      (by rw [List.length_replicate]; decide),
    (receive_buffer_capacities (List.replicate 2000 7)).2.2.2.1
      (by rw [List.length_replicate]; decide),
    (receive_buffer_capacities (List.replicate 2000 7)).2.2.2.2.1,
    (receive_buffer_capacities (List.replicate 2000 7)).2.2.2.2.2⟩

/-- The client's error taxonomy for `get_mapped_addr`
(`stunner_client/src/main.rs`): socket-level failures propagated by `?`,
decode failures wrapped with the context
"could not decode STUN response", and the `InvalidData` error built when no
XorMappedAddress attribute is present in the reply. -/
inductive ClientError where
  | transport (e : TransportError)
  | decodeFail (e : DecodeError)
  | invalidData (reason : String)
deriving DecidableEq, Repr

/-- The first XorMappedAddress attribute in a list, mirroring the client's
`for attr in stun_response.get_attributes()` scan that returns on the first
match. -/
def firstXorMapped : List StunAttribute → Option SocketAddr
  | [] => none
  | .XorMappedAddress a :: _ => some a
  | .Software _ :: rest => firstXorMapped rest
  | .ErrorCode _ _ _ :: rest => firstXorMapped rest

/-- The client's `get_mapped_addr` (`stunner_client/src/main.rs`, lines
36-76), after the binding request has been encoded.  `connectResult`,
`sendResult` and `recvResult` model `udp_socket.connect(dst_addr)?`,
`udp_socket.send(&bytes)?` and `udp_socket.recv(&mut response_buf)?`
(the latter carrying the raw reply datagram); `decode` is
`StunMessage::decode(&response_buf, None)`, applied to the entire
1280-byte zero-initialized buffer. -/
def get_mapped_addr (connectResult : Except TransportError Unit)
    (sendResult : Except TransportError Nat)
    (decode : List Nat → Except DecodeError StunMessage)
    (recvResult : Except TransportError (List Nat)) :
    Except ClientError SocketAddr :=
  match connectResult with
  | .error e => .error (.transport e)
  | .ok _ =>
    match sendResult with
    | .error e => .error (.transport e)
    | .ok _ =>
      match recvResult with
      | .error e => .error (.transport e)
      | .ok dgram =>
        match decode (recvInto MAX_STUN_MSG_SIZE dgram) with
        | .error e => .error (.decodeFail e)
        | .ok stun_response =>
          match firstXorMapped stun_response.get_attributes with
          | some socket_addr => .ok socket_addr
          | none =>
              .error (.invalidData
                "No XorMappedAddress has been set in response.")

/-- Renders a socket address as the Rust `Display` of `SocketAddr` would. -/
def addrToString (a : SocketAddr) : String :=
  String.intercalate "." (a.ip.map toString) ++ ":" ++ toString a.port

/-- Renders a client error description (the `anyhow` display: the decode
context string, or the io error message). -/
def clientErrorToString : ClientError → String
  | .transport e => e
  | .decodeFail e => "could not decode STUN response: " ++ e
  | .invalidData reason => reason

/-- The three lines printed by the client's `main` after a successful bind
(`stunner_client/src/main.rs`, lines 90-101): both the `Ok` and the `Err`
branch print "Binding test: success" as their first line. -/
def client_report (local_addr : SocketAddr)
    (response : Except ClientError SocketAddr) : List String :=
  match response with
  | .ok addr =>
      ["Binding test: success",
       "Local address: " ++ addrToString local_addr,
       "Mapped address: " ++ addrToString addr]
  | .error err =>
      ["Binding test: success",
       "Local address: " ++ addrToString local_addr,
       "Error: " ++ clientErrorToString err]

/-- helper: the scan finds nothing exactly when no XorMappedAddress attribute
occurs in the list. -/
theorem firstXorMapped_eq_none_iff (attrs : List StunAttribute) :
    firstXorMapped attrs = none ↔
      ∀ s, StunAttribute.XorMappedAddress s ∉ attrs := by
  induction attrs with
  | nil => simp [firstXorMapped]
  | cons a rest ih =>
    cases a with
    | Software d => simp [firstXorMapped, ih]
    | XorMappedAddress s =>
      simp [firstXorMapped]
      exact ⟨s, fun h => absurd rfl h⟩
    | ErrorCode c n r => simp [firstXorMapped, ih]

/-- Claim C7: after the transport steps succeed, `get_mapped_addr` ends in
exactly one of three outcomes — the decoded reply contains a XorMappedAddress
attribute and the contained address is returned; the reply decodes but has no
XorMappedAddress attribute and the distinct InvalidData protocol error
"No XorMappedAddress has been set in response." is returned; or decoding
fails and the decode error is returned.  The final conjunct grounds
"contains": the scan yields none exactly when no XorMappedAddress attribute
occurs. -/
theorem get_mapped_addr_outcomes
    (decode : List Nat → Except DecodeError StunMessage) (dgram : List Nat) :
    (∀ m socket_addr,
      decode (recvInto MAX_STUN_MSG_SIZE dgram) = .ok m →
      firstXorMapped m.get_attributes = some socket_addr →
      get_mapped_addr (.ok ()) (.ok 0) decode (.ok dgram) = .ok socket_addr) ∧
    (∀ m,
      decode (recvInto MAX_STUN_MSG_SIZE dgram) = .ok m →
      firstXorMapped m.get_attributes = none →
      get_mapped_addr (.ok ()) (.ok 0) decode (.ok dgram) =
        .error (.invalidData "No XorMappedAddress has been set in response.")) ∧
    (∀ e,
      decode (recvInto MAX_STUN_MSG_SIZE dgram) = .error e →
      get_mapped_addr (.ok ()) (.ok 0) decode (.ok dgram) =
        .error (.decodeFail e)) ∧
    (∀ attrs : List StunAttribute, firstXorMapped attrs = none ↔
      ∀ s, StunAttribute.XorMappedAddress s ∉ attrs) := by
  refine ⟨?_, ?_, ?_, firstXorMapped_eq_none_iff⟩
  · intro m socket_addr hdec hx
    simp [get_mapped_addr, hdec, hx]
  · intro m hdec hx
    simp [get_mapped_addr, hdec, hx]
  · intro e hdec
    simp [get_mapped_addr, hdec]

/-- Closed witness for C7: a concrete reply carrying a XorMappedAddress
attribute makes `get_mapped_addr` return the contained address. -/
theorem get_mapped_addr_outcomes_witness :
    get_mapped_addr (.ok ()) (.ok 0)
      (fun _ => .ok ⟨⟨.BindingRequest, .SuccessResponse, [1, 2, 3]⟩,
        [.XorMappedAddress ⟨[203, 0, 113, 7], 54321⟩]⟩)
      (.ok [0, 1]) = .ok ⟨[203, 0, 113, 7], 54321⟩ :=
  (get_mapped_addr_outcomes
    (fun _ => .ok ⟨⟨.BindingRequest, .SuccessResponse, [1, 2, 3]⟩,
      [.XorMappedAddress ⟨[203, 0, 113, 7], 54321⟩]⟩)
    [0, 1]).1
    ⟨⟨.BindingRequest, .SuccessResponse, [1, 2, 3]⟩,
      [.XorMappedAddress ⟨[203, 0, 113, 7], 54321⟩]⟩
    ⟨[203, 0, 113, 7], 54321⟩ rfl rfl

/-- Claim C8 is a code bug: at the concrete failing input (a decode failure
after a successful bind at 127.0.0.1:3000), the client's `Err` branch still
prints "Binding test: success" as its result headline — the same headline as
the `Ok` branch — instead of reporting a failure. -/
theorem client_report_error_branch_prints_success :
    client_report ⟨[127, 0, 0, 1], 3000⟩
        (.error (.decodeFail "unexpected end of file")) =
      ["Binding test: success",
       "Local address: 127.0.0.1:3000",
       "Error: could not decode STUN response: unexpected end of file"] ∧
    (client_report ⟨[127, 0, 0, 1], 3000⟩
        (.error (.decodeFail "unexpected end of file"))).head? =
      (client_report ⟨[127, 0, 0, 1], 3000⟩
        (.ok ⟨[203, 0, 113, 7], 54321⟩)).head? := by
  constructor <;> rfl

/-- helper: receiving a datagram no longer than the capacity fills the buffer
with the datagram followed by the untouched trailing zeros. -/
theorem recvInto_of_le (cap : Nat) (d : List Nat) (h : d.length ≤ cap) :
    recvInto cap d = d ++ List.replicate (cap - d.length) 0 := by
  simp [recvInto, List.take_of_length_le h]

/-- helper: a datagram exactly as long as the capacity fills the buffer with
itself. -/
theorem recvInto_full (cap : Nat) (x : List Nat) (h : x.length = cap) :
    recvInto cap x = x := by
  subst h
  simp [recvInto, List.take_of_length_le (Nat.le_refl _)]

/-- Claim C9: both roles hand the codec their entire fixed-size
zero-initialized buffer, ignoring the received byte count — for a datagram
shorter than the capacity the decoded byte sequence is the datagram followed
by trailing zeros (1024 on the server, 1280 on the client), so the server
step and the client exchange behave exactly as if the zero-padded sequence
itself had been received. -/
theorem decode_sees_padded_buffer (d : List Nat)
    (hs : d.length ≤ serverBufSize) (hc : d.length ≤ MAX_STUN_MSG_SIZE) :
    recvInto serverBufSize d =
      d ++ List.replicate (serverBufSize - d.length) 0 ∧
    recvInto MAX_STUN_MSG_SIZE d =
      d ++ List.replicate (MAX_STUN_MSG_SIZE - d.length) 0 ∧
    (∀ decode freshTid encode send src_addr,
      serveStep decode freshTid encode send (.ok (d, src_addr)) =
        serveStep decode freshTid encode send
          (.ok (d ++ List.replicate (serverBufSize - d.length) 0,
            src_addr))) ∧
    (∀ connectResult sendResult decode,
      get_mapped_addr connectResult sendResult decode (.ok d) =
        get_mapped_addr connectResult sendResult decode
          (.ok (d ++ List.replicate (MAX_STUN_MSG_SIZE - d.length) 0))) := by
  have hslen : (d ++ List.replicate (serverBufSize - d.length) 0).length =
      serverBufSize := by
    simp [List.length_append, List.length_replicate]
    omega
  have hclen : (d ++ List.replicate (MAX_STUN_MSG_SIZE - d.length) 0).length =
      MAX_STUN_MSG_SIZE := by
    simp [List.length_append, List.length_replicate]
    omega
  have hsrv := recvInto_of_le serverBufSize d hs
  have hcli := recvInto_of_le MAX_STUN_MSG_SIZE d hc
  have hsrv2 := recvInto_full serverBufSize _ hslen
  have hcli2 := recvInto_full MAX_STUN_MSG_SIZE _ hclen
  refine ⟨hsrv, hcli, ?_, ?_⟩
  · intro decode freshTid encode send src_addr
    simp only [serveStep, hsrv, hsrv2]
  · intro connectResult sendResult decode
    simp only [get_mapped_addr, hcli, hcli2]

/-- Closed witness for C9: a concrete 4-byte datagram. -/
theorem decode_sees_padded_buffer_witness :
    recvInto serverBufSize [1, 2, 3, 4] =
      [1, 2, 3, 4] ++ List.replicate (serverBufSize - 4) 0 ∧
    recvInto MAX_STUN_MSG_SIZE [1, 2, 3, 4] =
      [1, 2, 3, 4] ++ List.replicate (MAX_STUN_MSG_SIZE - 4) 0 := by
  have h := decode_sees_padded_buffer [1, 2, 3, 4] (by decide) (by decide)
  exact ⟨h.1, h.2.1⟩

/-- Claim C10: the server's reply depends only on the inbound message's
method, class and transaction identifier together with the source address —
two decodable inputs whose messages agree on the header but differ
arbitrarily in their attribute lists produce the same result. -/
theorem parse_message_ignores_inbound_attributes
    (decode1 decode2 : List Nat → Except DecodeError StunMessage)
    (freshTid buf1 buf2 : List Nat) (src_addr : SocketAddr)
    (m1 m2 : StunMessage)
    (h1 : decode1 buf1 = .ok m1) (h2 : decode2 buf2 = .ok m2)
    (hmethod : m1.get_header.message_method = m2.get_header.message_method)
    (hcls : m1.get_header.message_class = m2.get_header.message_class)
    (htid : m1.get_header.transaction_id = m2.get_header.transaction_id) :
    parse_message decode1 freshTid buf1 src_addr =
      parse_message decode2 freshTid buf2 src_addr := by
  obtain ⟨⟨mm1, mc1, mt1⟩, ma1⟩ := m1
  obtain ⟨⟨mm2, mc2, mt2⟩, ma2⟩ := m2
  simp only [StunMessage.get_header] at hmethod hcls htid
  subst hcls
  subst htid
  cases mm1
  cases mm2
  cases mc1 <;> simp [parse_message, h1, h2, StunMessage.get_header]

/-- Closed witness for C10: two inbound Requests with the same header but
different attribute lists get the same reply. -/
theorem parse_message_ignores_inbound_attributes_witness :
    parse_message
      (fun _ => .ok ⟨⟨.BindingRequest, .Request, [1, 2, 3]⟩, []⟩)
      [9, 9] [0] ⟨[10, 0, 0, 1], 7⟩ =
    parse_message
      (fun _ => .ok ⟨⟨.BindingRequest, .Request, [1, 2, 3]⟩,
        [.Software "stunner", .ErrorCode 3 1 "x"]⟩)
      [9, 9] [0, 0] ⟨[10, 0, 0, 1], 7⟩ :=
  parse_message_ignores_inbound_attributes
    (fun _ => .ok ⟨⟨.BindingRequest, .Request, [1, 2, 3]⟩, []⟩)
    (fun _ => .ok ⟨⟨.BindingRequest, .Request, [1, 2, 3]⟩,
      [.Software "stunner", .ErrorCode 3 1 "x"]⟩)
    [9, 9] [0] [0, 0] ⟨[10, 0, 0, 1], 7⟩
    ⟨⟨.BindingRequest, .Request, [1, 2, 3]⟩, []⟩
    ⟨⟨.BindingRequest, .Request, [1, 2, 3]⟩,
      [.Software "stunner", .ErrorCode 3 1 "x"]⟩
    rfl rfl rfl rfl rfl
